import Mathlib

/-!
Verification of the natural-language specification of the
`valorant-api-python` repository against a shallow embedding of its code.

The embedding covers:
* `cache.py`: the `sync_caching` memoization decorator and its shared
  module-level `cache` dictionary;
* `api.py`: `SyncClient.get` (HTTP status to outcome mapping), the
  endpoint facades `SyncAgentEndpoint.fetch_all` / `fetch_from_uuid`,
  and the `remove_unused` post-filter of
  `SyncCompetitiveTierEndpoint.fetch_all`;
* `errors.py`: the exception hierarchy and its `__int__` conversion;
* `agents.py` and `buddies.py`: the entity constructors.

Python dynamic values are embedded as the inductive `PyVal` (for the
cache layer, which is polymorphic) and `Json` (for decoded HTTP
bodies).  Python exceptions are embedded as an explicit `PyExn` error
type with fallible code returning `Except PyExn`.
-/

namespace ValorantAPI

/-- Dynamic Python values as they flow through the caching decorator:
the decorator in `cache.py` is polymorphic, handling function names
(strings), positional/keyword argument values and cached results.
Structural (derived) equality is used for dictionary keys; Python `==`
additionally identifies `True`/`False` with `1`/`0`, a case no argument
tuple in this development exercises. -/
inductive PyVal where
  | none
  | bool (b : Bool)
  | int (n : Int)
  | str (s : String)
  | list (xs : List PyVal)
deriving Repr

mutual

/-- Structural equality on `PyVal` (a Boolean test; the nested `list`
constructor prevents a derived instance). -/
def PyVal.beq : PyVal → PyVal → Bool
  | .none, .none => true
  | .bool a, .bool b => a == b
  | .int a, .int b => a == b
  | .str a, .str b => a == b
  | .list as, .list bs => PyVal.beqList as bs
  | _, _ => false

/-- Structural equality on lists of `PyVal`. -/
def PyVal.beqList : List PyVal → List PyVal → Bool
  | [], [] => true
  | _ :: _, [] => false
  | [], _ :: _ => false
  | a :: as, b :: bs => PyVal.beq a b && PyVal.beqList as bs

end

mutual

theorem PyVal.eq_of_beq : ∀ (a b : PyVal), PyVal.beq a b = true → a = b
  | .none, .none, _ => rfl
  | .bool _, .bool _, h => by simpa [PyVal.beq] using h
  | .int _, .int _, h => by simpa [PyVal.beq] using h
  | .str _, .str _, h => by simpa [PyVal.beq] using h
  | .list as, .list bs, h => by
      rw [PyVal.eqList_of_beqList as bs (by simpa [PyVal.beq] using h)]
  | .none, .bool _, h | .none, .int _, h | .none, .str _, h | .none, .list _, h
  | .bool _, .none, h | .bool _, .int _, h | .bool _, .str _, h | .bool _, .list _, h
  | .int _, .none, h | .int _, .bool _, h | .int _, .str _, h | .int _, .list _, h
  | .str _, .none, h | .str _, .bool _, h | .str _, .int _, h | .str _, .list _, h
  | .list _, .none, h | .list _, .bool _, h | .list _, .int _, h | .list _, .str _, h =>
      by simp [PyVal.beq] at h

theorem PyVal.eqList_of_beqList : ∀ (as bs : List PyVal), PyVal.beqList as bs = true → as = bs
  | [], [], _ => rfl
  | _ :: _, [], h => by simp [PyVal.beqList] at h
  | [], _ :: _, h => by simp [PyVal.beqList] at h
  | a :: as, b :: bs, h => by
      have h' := h
      simp only [PyVal.beqList, Bool.and_eq_true] at h'
      rw [PyVal.eq_of_beq a b h'.1, PyVal.eqList_of_beqList as bs h'.2]

end

mutual

theorem PyVal.beq_refl : ∀ (a : PyVal), PyVal.beq a a = true
  | .none => rfl
  | .bool _ => by simp [PyVal.beq]
  | .int _ => by simp [PyVal.beq]
  | .str _ => by simp [PyVal.beq]
  | .list as => PyVal.beqList_refl as

theorem PyVal.beqList_refl : ∀ (as : List PyVal), PyVal.beqList as as = true
  | [] => rfl
  | a :: as => by
      simp only [PyVal.beqList, Bool.and_eq_true]
      exact ⟨PyVal.beq_refl a, PyVal.beqList_refl as⟩

end

theorem PyVal.beq_iff_eq (a b : PyVal) : PyVal.beq a b = true ↔ a = b :=
  ⟨PyVal.eq_of_beq a b, fun h => h ▸ PyVal.beq_refl a⟩

instance : DecidableEq PyVal := fun a b =>
  decidable_of_iff (PyVal.beq a b = true) (PyVal.beq_iff_eq a b)

/-- Python truthiness (`bool(v)`) for the embedded values: `None`,
`False`, `0`, the empty string and the empty list are falsy. -/
def PyVal.truthy : PyVal → Bool
  | .none => false
  | .bool b => b
  | .int n => n != 0
  | .str s => s != ""
  | .list xs => !xs.isEmpty

/-- Cache keys: the tuple `(func.__name__,) + args + tuple(kwargs.values())`
is embedded as a list of `PyVal`. -/
abbrev CacheKey := List PyVal

/-- The module-level `cache` dictionary of `cache.py`, embedded as an
insertion-ordered association list with unique keys (a Python `dict`). -/
abbrev PyDict := List (CacheKey × PyVal)

/-- `d.get(k)` on a Python dict: the value under the first (and only)
matching key, if any. -/
def dictGet (d : PyDict) (k : CacheKey) : Option PyVal :=
  match d with
  | [] => Option.none
  | (k', v) :: rest => if k' = k then some v else dictGet rest k

/-- `d[k] = v` on a Python dict: overwrite the existing entry in place,
otherwise append a new one. -/
def dictSet (d : PyDict) (k : CacheKey) (v : PyVal) : PyDict :=
  match d with
  | [] => [(k, v)]
  | (k', v') :: rest => if k' = k then (k', v) :: rest else (k', v') :: dictSet rest k v

/-- `d.pop(k, None)` on a Python dict: remove the entry under `k`,
ignoring absence. -/
def dictPop (d : PyDict) (k : CacheKey) : PyDict :=
  match d with
  | [] => []
  | (k', v') :: rest => if k' = k then rest else (k', v') :: dictPop rest k

/-- Keyword arguments of a call, in call order (Python ≥ 3.7 preserves
keyword order in `**kwargs`). -/
abbrev Kwargs := List (String × PyVal)

/-- `kwargs.get(name, default)`. -/
def kwGet (kwargs : Kwargs) (name : String) (dflt : PyVal) : PyVal :=
  match kwargs with
  | [] => dflt
  | (n, v) :: rest => if n = name then v else kwGet rest name dflt

/-- `values = (func.__name__,)+args+tuple(kwargs.values())`
(`cache.py`, line 7): the cache key of a call.  Note the keyword
argument *names* are dropped; only the values, in call order, enter the
key — and the `cache` flag itself, being a keyword argument, enters it
too. -/
def buildKey (funcName : String) (args : List PyVal) (kwargs : Kwargs) : CacheKey :=
  PyVal.str funcName :: args ++ kwargs.map Prod.snd

/-- One invocation of the wrapper produced by `sync_caching`
(`cache.py`, lines 5–16).  The wrapped function `func` is modelled as
an oracle `f : Nat → PyVal` giving the result of its `n`-th underlying
invocation (so distinct invocations may observably differ), and the
state threads the shared `cache` dictionary together with the running
count of underlying invocations.  Returns
`(return value, new cache, new invocation count)`. -/
def syncCachingCall (f : Nat → PyVal) (funcName : String) (args : List PyVal)
    (kwargs : Kwargs) (cache : PyDict) (ncalls : Nat) : PyVal × PyDict × Nat :=
  let values := buildKey funcName args kwargs
  if (kwGet kwargs "cache" (PyVal.bool false)).truthy then
    -- `if cache.get(values,False): return cache[values]`
    if ((dictGet cache values).getD (PyVal.bool false)).truthy then
      ((dictGet cache values).getD PyVal.none, cache, ncalls)
    else
      -- `cache[values] = func(*args,**kwargs); return cache[values]`
      let v := f ncalls
      let cache' := dictSet cache values v
      ((dictGet cache' values).getD PyVal.none, cache', ncalls + 1)
  else
    -- `cache.pop(values,None); return func(*args,**kwargs)`
    (f ncalls, dictPop cache values, ncalls + 1)

theorem dictGet_dictSet_self (d : PyDict) (k : CacheKey) (v : PyVal) :
    dictGet (dictSet d k v) k = some v := by
  induction d with
  | nil => simp [dictSet, dictGet]
  | cons kv rest ih =>
    by_cases h : kv.1 = k
    · simp [dictSet, dictGet, h]
    · simp [dictSet, dictGet, h, ih]

/-! ### Transport: `SyncClient.get` (`api.py`, lines 60–70) and the
exception hierarchy (`errors.py`). -/

/-- Decoded JSON values as returned by `resp.json()`.  JSON numbers are
embedded as integers: every numeric field this development touches
(HTTP status codes in response bodies) is integral. -/
inductive Json where
  | null
  | bool (b : Bool)
  | num (n : Int)
  | str (s : String)
  | arr (xs : List Json)
  | obj (kvs : List (String × Json))
deriving Repr

/-- Key lookup in a decoded JSON object (the association list of an
`obj`): the value under the first matching key, if any. -/
def jLookup : List (String × Json) → String → Option Json
  | [], _ => Option.none
  | (k, v) :: rest, key => if k = key then some v else jLookup rest key

/-- Python truthiness of a decoded JSON value (`None`, `False`, `0`,
`''`, `[]` and the empty dict are falsy). -/
def Json.truthy : Json → Bool
  | .null => false
  | .bool b => b
  | .num n => n != 0
  | .str s => s != ""
  | .arr xs => !xs.isEmpty
  | .obj kvs => !kvs.isEmpty

/-- The Python exceptions reachable from the embedded code paths.  The
first three embed `errors.py`: `InvalidOrMissingParameters`,
`UUIDNotFound` and the library's own `BaseException`, each carrying the
constructor arguments `(status_code, error)` (dynamically these are
whatever JSON values the call site passes).  The rest embed built-in
exceptions: the `requests` JSON decode failure, `KeyError`/`TypeError`
from subscripting, `ValueError` from the session-type guard, and
`AttributeError`/`TypeError` from entity construction. -/
inductive PyExn where
  | invalidOrMissingParameters (status_code : Json) (error : Json)
  | uuidNotFound (status_code : Json) (error : Json)
  | baseError (status_code : Json) (error : Json)
  | jsonDecodeError
  | keyError (key : String)
  | typeError
  | valueError (msg : String)
  | attributeError
deriving Repr

/-- `BaseException.__int__` (`errors.py`, lines 5–6) returns
`self.status_code`; all three library exceptions inherit it.  Defined
(as `some`) when the stored status is a JSON number, which is what
`int()` of the stored value yields there. -/
def PyExn.intConv : PyExn → Option Int
  | .invalidOrMissingParameters (.num n) _ => some n
  | .uuidNotFound (.num n) _ => some n
  | .baseError (.num n) _ => some n
  | _ => Option.none

/-- `data[key]` on a decoded JSON value: `KeyError` when a JSON object
lacks the key, a `TypeError`-style failure when the value is not an
object. -/
def Json.item (data : Json) (key : String) : Except PyExn Json :=
  match data with
  | .obj kvs =>
    match jLookup kvs key with
    | some v => Except.ok v
    | Option.none => Except.error (PyExn.keyError key)
  | _ => Except.error PyExn.typeError

/-- An HTTP response as the transport observes it: the status code and
the decoded body.  `json = Option.none` models a body that is not valid
JSON, on which `resp.json()` raises. -/
structure Response where
  status_code : Nat
  json : Option Json

/-- `SyncClient.get` (`api.py`, lines 61–70), with the network read
modelled by the `Response` the server sent back.  Mirrors the source
exactly: `resp.json()` is evaluated first (line 63, before any status
test), then status 200 returns the decoded body, 400 raises
`InvalidOrMissingParameters(data['status'], 'Invalid or missing parameters')`,
404 raises `UUIDNotFound(data['status'], 'UUID not valid')`, and any
other status raises `BaseException(data['status'], data['error'])`. -/
def SyncClient.get (resp : Response) : Except PyExn Json :=
  match resp.json with
  | Option.none => Except.error PyExn.jsonDecodeError
  | some data =>
    if resp.status_code = 200 then
      Except.ok data
    else if resp.status_code = 400 then
      match data.item "status" with
      | Except.error e => Except.error e
      | Except.ok st =>
          Except.error (PyExn.invalidOrMissingParameters st (Json.str "Invalid or missing parameters"))
    else if resp.status_code = 404 then
      match data.item "status" with
      | Except.error e => Except.error e
      | Except.ok st => Except.error (PyExn.uuidNotFound st (Json.str "UUID not valid"))
    else
      match data.item "status" with
      | Except.error e => Except.error e
      | Except.ok st =>
        match data.item "error" with
        | Except.error e => Except.error e
        | Except.ok er => Except.error (PyExn.baseError st er)

/-- Whether a transport outcome is the generic upstream error object
(`BaseException` carrying server-reported status and message). -/
def isGenericError : Except PyExn Json → Bool
  | Except.error (PyExn.baseError _ _) => true
  | _ => false

/-! ### Entity mappers: `agents.py` and `buddies.py`. -/

/-- `data.get(key)` on a decoded JSON value: `None` when the key is
absent, the stored value otherwise; an `AttributeError` when the value
is not a dict (only dicts have `.get`). -/
def Json.pyGet (data : Json) (key : String) : Except PyExn (Option Json) :=
  match data with
  | .obj kvs => Except.ok (jLookup kvs key)
  | _ => Except.error PyExn.attributeError

/-- Truthiness of a `data.get(key)` result: an absent key (`None`) is
falsy. -/
def optTruthy : Option Json → Bool
  | Option.none => false
  | some j => j.truthy

/-- `for info in x` over a decoded JSON value: lists iterate their
elements, dicts their keys, strings their characters; other values are
not iterable (`TypeError`). -/
def Json.iterElems : Json → Except PyExn (List Json)
  | .arr xs => Except.ok xs
  | .obj kvs => Except.ok (kvs.map fun kv => Json.str kv.1)
  | .str s => Except.ok (s.data.map fun c => Json.str (String.mk [c]))
  | _ => Except.error PyExn.typeError

/-- A list comprehension `[f(x) for x in xs]` over fallible `f`:
elements are mapped left to right and the first exception
propagates. -/
def mapExcept {α β : Type} (f : α → Except PyExn β) : List α → Except PyExn (List β)
  | [] => Except.ok []
  | x :: rest => do
    let b ← f x
    let bs ← mapExcept f rest
    Except.ok (b :: bs)

/-- The result of `datetime.strptime(s, '%Y-%m-%dT%H:%M:%SZ')`. -/
structure PyDatetime where
  year : Nat
  month : Nat
  day : Nat
  hour : Nat
  minute : Nat
  second : Nat
deriving DecidableEq, Repr

/-- Numeric value of a decimal digit character. -/
def digitVal (c : Char) : Option Nat :=
  if c.isDigit then some (c.toNat - 48) else Option.none

/-- Two decimal digit characters as a number. -/
def twoDigits (a b : Char) : Option Nat := do
  let x ← digitVal a
  let y ← digitVal b
  pure (10 * x + y)

/-- Day count of a month, with Gregorian leap years, as `datetime`
validates it. -/
def daysInMonth (y m : Nat) : Nat :=
  if m = 2 then
    if (y % 4 = 0 ∧ y % 100 ≠ 0) ∨ y % 400 = 0 then 29 else 28
  else if m = 4 ∨ m = 6 ∨ m = 9 ∨ m = 11 then 30
  else 31

/-- `datetime.strptime(s, '%Y-%m-%dT%H:%M:%SZ')`, `None` modelling the
`ValueError` that `strptime` raises when the string does not match.
The model accepts the canonical zero-padded form of the format (what
the upstream API serves); Python additionally tolerates some
non-padded variants, which nothing in this development relies on. -/
def strptimeZ (s : String) : Option PyDatetime :=
  match s.data with
  | [y1, y2, y3, y4, '-', m1, m2, '-', d1, d2, 'T',
     h1, h2, ':', n1, n2, ':', s1, s2, 'Z'] => do
    let a ← digitVal y1
    let b ← digitVal y2
    let c ← digitVal y3
    let d ← digitVal y4
    let y := 1000 * a + 100 * b + 10 * c + d
    let mo ← twoDigits m1 m2
    let da ← twoDigits d1 d2
    let h ← twoDigits h1 h2
    let mi ← twoDigits n1 n2
    let se ← twoDigits s1 s2
    if 1 ≤ y ∧ 1 ≤ mo ∧ mo ≤ 12 ∧ 1 ≤ da ∧ da ≤ daysInMonth y mo
        ∧ h ≤ 23 ∧ mi ≤ 59 ∧ se ≤ 59 then
      some ⟨y, mo, da, h, mi, se⟩
    else Option.none
  | _ => Option.none

/-- `AgentDisplayIcon` (`agents.py`, lines 4–19): plain storage of the
two constructor arguments. -/
structure AgentDisplayIcon where
  display_icon : Option Json
  display_icon_small : Option Json
deriving Repr

/-- `AgentPortrait` (`agents.py`, lines 21–43): plain storage. -/
structure AgentPortrait where
  full_portrait : Option Json
  full_portrait_v2 : Option Json
  kill_feed_portrait : Option Json
  is_full_portrait_facing_right : Option Json
deriving Repr

/-- `AgentRole` (`agents.py`, lines 45–77). -/
structure AgentRole where
  uuid : Option Json
  display_name : Option Json
  description : Option Json
  display_icon : Option Json
  asset_path : Option Json
deriving Repr

/-- `AgentRole.__init__` (`agents.py`, lines 46–52): `None` degrades to
the empty dict, then five optional-field extractions. -/
def AgentRole.ofJson (data? : Option Json) : Except PyExn AgentRole := do
  let d := data?.getD (Json.obj [])
  let uuid ← d.pyGet "uuid"
  let display_name ← d.pyGet "displayName"
  let description ← d.pyGet "description"
  let display_icon ← d.pyGet "displayIcon"
  let asset_path ← d.pyGet "assetPath"
  Except.ok ⟨uuid, display_name, description, display_icon, asset_path⟩

/-- `AgentRecruitmentData` (`agents.py`, lines 79–89). -/
structure AgentRecruitmentData where
  counter_id : Option Json
  milestone_id : Option Json
  milestone_threshold : Option Json
  use_level_vp_cost_override : Option Json
  level_vp_cost_override : Option Json
  start_date : Option PyDatetime
  end_date : Option PyDatetime
deriving Repr

/-- `AgentRecruitmentData.__init__` (`agents.py`, lines 81–89).  Two
hazards are embedded faithfully from the source: `strptime` raises
(`ValueError`) on a present-but-malformed date string and (`TypeError`)
on a truthy non-string, and the `end_date` line's condition is
`if data.get('startDate')` — the source's own guard — so a truthy
`startDate` combined with a missing or malformed `endDate` raises while
parsing `end_date`. -/
def AgentRecruitmentData.ofJson (data? : Option Json) : Except PyExn AgentRecruitmentData := do
  let d := data?.getD (Json.obj [])
  let counter_id ← d.pyGet "counterId"
  let milestone_id ← d.pyGet "milestoneId"
  let milestone_threshold ← d.pyGet "milestoneThreshold"
  let use_level_vp_cost_override ← d.pyGet "useLevelVpCostOverride"
  let level_vp_cost_override ← d.pyGet "levelVpCostOverride"
  let sd ← d.pyGet "startDate"
  let start_date ←
    (if optTruthy sd then
      match sd with
      | some (Json.str s) =>
        match strptimeZ s with
        | some dt => Except.ok (some dt)
        | Option.none => Except.error (PyExn.valueError "time data does not match format")
      | _ => Except.error PyExn.typeError
    else Except.ok Option.none)
  let ed ← d.pyGet "endDate"
  let end_date ←
    (if optTruthy sd then
      match ed with
      | some (Json.str s) =>
        match strptimeZ s with
        | some dt => Except.ok (some dt)
        | Option.none => Except.error (PyExn.valueError "time data does not match format")
      | _ => Except.error PyExn.typeError
    else Except.ok Option.none)
  Except.ok ⟨counter_id, milestone_id, milestone_threshold, use_level_vp_cost_override,
    level_vp_cost_override, start_date, end_date⟩

/-- `AgentAbility` (`agents.py`, lines 91–118). -/
structure AgentAbility where
  slot : Option Json
  display_name : Option Json
  description : Option Json
  display_icon : Option Json
deriving Repr

/-- `AgentAbility.__init__` (`agents.py`, lines 92–97). -/
def AgentAbility.ofJson (data? : Option Json) : Except PyExn AgentAbility := do
  let d := data?.getD (Json.obj [])
  let slot ← d.pyGet "slot"
  let display_name ← d.pyGet "displayName"
  let description ← d.pyGet "description"
  let display_icon ← d.pyGet "displayIcon"
  Except.ok ⟨slot, display_name, description, display_icon⟩

/-- `VoiceLineMediaList` (`agents.py`, lines 120–126). -/
structure VoiceLineMediaList where
  id : Option Json
  wwise : Option Json
  wave : Option Json
deriving Repr

/-- `VoiceLineMediaList.__init__` (`agents.py`, lines 122–126). -/
def VoiceLineMediaList.ofJson (data? : Option Json) : Except PyExn VoiceLineMediaList := do
  let d := data?.getD (Json.obj [])
  let id ← d.pyGet "id"
  let wwise ← d.pyGet "wwise"
  let wave ← d.pyGet "wave"
  Except.ok ⟨id, wwise, wave⟩

/-- `VoiceLine` (`agents.py`, lines 128–143). -/
structure VoiceLine where
  min_duration_single : Option Json
  max_duration_single : Option Json
  media_list : Option VoiceLineMediaList
deriving Repr

/-- `VoiceLine.__init__` (`agents.py`, lines 129–133). -/
def VoiceLine.ofJson (data? : Option Json) : Except PyExn VoiceLine := do
  let d := data?.getD (Json.obj [])
  let min_duration_single ← d.pyGet "minDuration"
  let max_duration_single ← d.pyGet "maxDuration"
  let ml ← d.pyGet "mediaList"
  let media_list ←
    (if optTruthy ml then do
      let v ← VoiceLineMediaList.ofJson ml
      Except.ok (some v)
    else Except.ok Option.none)
  Except.ok ⟨min_duration_single, max_duration_single, media_list⟩

/-- `Agent` (`agents.py`, lines 145–182).  Fields declared `Optional[str]`
and the like store whatever JSON value the mapping holds, hence
`Option Json`. -/
structure Agent where
  uuid : Option Json
  display_name : Option Json
  description : Option Json
  developer_name : Option Json
  character_tags : Json
  icon : Option AgentDisplayIcon
  bust_portrait : Option Json
  portrait : AgentPortrait
  background : Option Json
  background_gradient_colors : Json
  is_playable_character : Option Json
  is_available_for_test : Option Json
  is_base_content : Option Json
  role : Option AgentRole
  recruitment_data : Option AgentRecruitmentData
  abilities : List AgentAbility
  voice_line : Option VoiceLine
deriving Repr

/-- `Agent.__init__` (`agents.py`, lines 146–163), field by field in
source order. -/
def Agent.ofJson (data : Json) : Except PyExn Agent := do
  let uuid ← data.pyGet "uuid"
  let display_name ← data.pyGet "displayName"
  let description ← data.pyGet "description"
  let developer_name ← data.pyGet "developerName"
  let character_tags := (← data.pyGet "characterTags").getD (Json.arr [])
  let di ← data.pyGet "displayIcon"
  let icon ←
    (if optTruthy di then do
      let dis ← data.pyGet "displayIconSmall"
      Except.ok (some (AgentDisplayIcon.mk di dis))
    else Except.ok Option.none)
  let bust_portrait ← data.pyGet "bustPortrait"
  let fp ← data.pyGet "fullPortrait"
  let fp2 ← data.pyGet "fullPortraitV2"
  let kfp ← data.pyGet "killFeedPortrait"
  let ffr ← data.pyGet "isFullPortraitFacingRight"
  let background ← data.pyGet "background"
  let background_gradient_colors := (← data.pyGet "backgroundGradientColors").getD (Json.arr [])
  let is_playable_character ← data.pyGet "isPlayableCharacter"
  let is_available_for_test ← data.pyGet "isAvailableForTest"
  let is_base_content ← data.pyGet "isBaseContent"
  let rv ← data.pyGet "role"
  let role ←
    (if optTruthy rv then do
      let r ← AgentRole.ofJson rv
      Except.ok (some r)
    else Except.ok Option.none)
  let rd ← data.pyGet "recruitmentData"
  let recruitment_data ←
    (if optTruthy rd then do
      let r ← AgentRecruitmentData.ofJson rd
      Except.ok (some r)
    else Except.ok Option.none)
  let ab := (← data.pyGet "abilities").getD (Json.arr [])
  let abElems ← ab.iterElems
  let abilities ← mapExcept (fun info => AgentAbility.ofJson (some info)) abElems
  let vl ← data.pyGet "voiceLine"
  let voice_line ←
    (if optTruthy vl then do
      let v ← VoiceLine.ofJson vl
      Except.ok (some v)
    else Except.ok Option.none)
  Except.ok ⟨uuid, display_name, description, developer_name, character_tags, icon,
    bust_portrait, AgentPortrait.mk fp fp2 kfp ffr, background, background_gradient_colors,
    is_playable_character, is_available_for_test, is_base_content, role, recruitment_data,
    abilities, voice_line⟩

/-- `BuddyLevel` (`buddies.py`, lines 3–19). -/
structure BuddyLevel where
  uuid : Option Json
  charm_level : Option Json
  hide_if_not_found : Option Json
  display_name : Option Json
  display_icon : Option Json
  asset_path : Option Json
deriving Repr

/-- `BuddyLevel.__init__` (`buddies.py`, lines 4–10). -/
def BuddyLevel.ofJson (data : Json) : Except PyExn BuddyLevel := do
  let uuid ← data.pyGet "uuid"
  let charm_level ← data.pyGet "charmLevel"
  let hide_if_not_found ← data.pyGet "hideIfNotFound"
  let display_name ← data.pyGet "displayName"
  let display_icon ← data.pyGet "displayIcon"
  let asset_path ← data.pyGet "asset_path"
  Except.ok ⟨uuid, charm_level, hide_if_not_found, display_name, display_icon, asset_path⟩

/-- `Buddy` (`buddies.py`, lines 21–38).  The `levels` attribute is
annotated `List[BuddyLevel]` in the source but assigned
`data.get('levels',[])` — the raw JSON value, with no `BuddyLevel`
conversion — so the embedded field type is the raw `Json`. -/
structure Buddy where
  uuid : Option Json
  display_name : Option Json
  is_hidden_if__not_owner : Option Json
  theme_uuid : Option Json
  display_icon : Option Json
  asset_path : Option Json
  levels : Json
deriving Repr

/-- `Buddy.__init__` (`buddies.py`, lines 22–29). -/
def Buddy.ofJson (data : Json) : Except PyExn Buddy := do
  let uuid ← data.pyGet "uuid"
  let display_name ← data.pyGet "displayName"
  let is_hidden_if__not_owner ← data.pyGet "isHiddenIfNotOwner"
  let theme_uuid ← data.pyGet "themeUuid"
  let display_icon ← data.pyGet "displayIcon"
  let asset_path ← data.pyGet "assetPath"
  let levels := (← data.pyGet "levels").getD (Json.arr [])
  Except.ok ⟨uuid, display_name, is_hidden_if__not_owner, theme_uuid, display_icon,
    asset_path, levels⟩

/-! ### Endpoint facades (`api.py`). -/

/-- `SyncAgentEndpoint.fetch_all` (`api.py`, lines 96–111).
`sessionIsAsync` embeds the guard
`isinstance(self._client._session, AsyncClient)`; the network
interaction is modelled by the `Response` the server would return for
the request (path and query parameters only select that response).
The second component records whether the network request was issued,
i.e. whether control reached `self._client._session.get(...)`. -/
def SyncAgentEndpoint.fetch_all (sessionIsAsync : Bool) (resp : Response) :
    Except PyExn (List Agent) × Bool :=
  if sessionIsAsync then
    (Except.error (PyExn.valueError "Invalid session type"), false)
  else
    ((do
      let data ← SyncClient.get resp
      let dv ← Json.pyGet data "data"
      let elems ← (dv.getD (Json.arr [])).iterElems
      mapExcept (fun info => Agent.ofJson info) elems), true)

/-- `SyncAgentEndpoint.fetch_from_uuid` (`api.py`, lines 113–128); the
`uuid` argument only selects the request path, hence the `Response`. -/
def SyncAgentEndpoint.fetch_from_uuid (sessionIsAsync : Bool) (uuid : String)
    (resp : Response) : Except PyExn Agent × Bool :=
  if sessionIsAsync then
    (Except.error (PyExn.valueError "Invalid session type"), false)
  else
    ((do
      let data ← SyncClient.get resp
      let dv ← Json.pyGet data "data"
      Agent.ofJson (dv.getD (Json.obj []))), true)

/-- Modelled from the spec: the repository imports `CompetitiveTier`
from `competitivetiers.py`, a file not among the sources; per §4.3 a
competitive tier record holds tier sub-records each carrying an
optional display name, which is all the `remove_unused` filter in
`api.py` reads (`comp.tiers`, `tier.name`). -/
structure Tier where
  name : Option String
deriving DecidableEq, Repr

/-- Modelled from the spec: a competitive tier record's list of tier
sub-records (see `Tier`). -/
structure CompetitiveTier where
  tiers : List Tier
deriving DecidableEq, Repr

/-- Whether the first character list is an initial run of the second. -/
def charsLeadEq : List Char → List Char → Bool
  | [], _ => true
  | _ :: _, [] => false
  | a :: as, b :: bs => a == b && charsLeadEq as bs

/-- Python substring containment `'Unused' in name`. -/
def strContainsUnused (name : String) : Bool :=
  (List.range (name.data.length + 1)).any fun i => charsLeadEq "Unused".data (name.data.drop i)

/-- The loop body's condition `tier.name and 'Unused' in tier.name`
(`api.py`, line 453): a `None` or empty name is falsy and skipped. -/
def Tier.isUnusedTier (t : Tier) : Bool :=
  match t.name with
  | some s => s != "" && strContainsUnused s
  | Option.none => false

/-- `list.remove(x)`: delete the first element equal to `x`.  (Python
raises `ValueError` when no element matches; the embedded loop only
removes elements it just took from a snapshot of the same list, so that
case is unreachable there.) -/
def listRemove (xs : List Tier) (t : Tier) : List Tier :=
  match xs with
  | [] => []
  | x :: rest => if x = t then rest else x :: listRemove rest t

/-- The inner loop of the `remove_unused` filter
(`api.py`, lines 452–454) on one record:
`for tier in list(comp.tiers): if tier.name and 'Unused' in tier.name: ...tiers.remove(tier)`.
The iteration runs over a snapshot copy (`list(comp.tiers)`) while each
removal mutates the live list, here threaded as the fold state. -/
def removeUnusedLoop (tiers : List Tier) : List Tier :=
  List.foldl (fun cur t => if t.isUnusedTier then listRemove cur t else cur) tiers tiers

/-- The filtering stage of `SyncCompetitiveTierEndpoint.fetch_all`
(`api.py`, lines 449–455) applied to the constructed records.  The
outer loop's `comp_tiers[comp_tiers.index(comp)].tiers.remove(tier)`
resolves — `index` compares these objects by identity in Python — to
mutating exactly the record currently being processed, so the loop maps
each record to its filtered tier list. -/
def fetchAllCompetitiveFilter (remove_unused : Bool) (comp_tiers : List CompetitiveTier) :
    List CompetitiveTier :=
  if remove_unused then
    comp_tiers.map fun comp => ⟨removeUnusedLoop comp.tiers⟩
  else comp_tiers

theorem listRemove_append_of_not_mem (pre rest : List Tier) (t : Tier)
    (h : ∀ x ∈ pre, x ≠ t) :
    listRemove (pre ++ t :: rest) t = pre ++ rest := by
  induction pre with
  | nil => simp [listRemove]
  | cons x xs ih =>
    have hx : x ≠ t := h x (by simp)
    simp only [List.cons_append, listRemove, if_neg hx, List.append_eq]
    rw [ih fun y hy => h y (by simp [hy])]

theorem removeUnusedLoop_foldl (todo : List Tier) : ∀ (pre : List Tier),
    (∀ x ∈ pre, x.isUnusedTier = false) →
    List.foldl (fun cur t => if t.isUnusedTier then listRemove cur t else cur)
        (pre ++ todo) todo
      = pre ++ todo.filter (fun t => !t.isUnusedTier) := by
  induction todo with
  | nil => intro pre _; simp
  | cons t rest ih =>
    intro pre hpre
    by_cases hu : t.isUnusedTier = true
    · have hne : ∀ x ∈ pre, x ≠ t := by
        intro x hx he
        rw [he] at hx
        exact absurd hu (by simp [hpre t hx])
      simp only [List.foldl_cons, if_pos hu,
        listRemove_append_of_not_mem pre rest t hne]
      rw [ih pre hpre]
      simp [List.filter_cons, hu]
    · have : pre ++ t :: rest = (pre ++ [t]) ++ rest := by simp
      simp only [List.foldl_cons, if_neg hu, this]
      rw [ih (pre ++ [t]) (by
        intro x hx
        rcases List.mem_append.mp hx with hmem | hmem
        · exact hpre x hmem
        · simp at hmem
          subst hmem
          simpa using hu)]
      simp [List.filter_cons, hu]

theorem removeUnusedLoop_eq_filter (tiers : List Tier) :
    removeUnusedLoop tiers = tiers.filter (fun t => !t.isUnusedTier) := by
  simpa [removeUnusedLoop] using removeUnusedLoop_foldl tiers [] (by simp)

/-! ### Machinery for C4: what construction of an `Agent` computes on a
mapping whose present fields are well-formed. -/

/-- `bind` over the embedded exceptions: a succeeded step feeds its
value to the continuation. -/
theorem bind_ok_pyExn {α β : Type} (a : α) (f : α → Except PyExn β) :
    bind (Except.ok a) f = f a := rfl

/-- An `if` whose branches both succeed is a succeeded `if`. -/
theorem ite_ok_push {α : Type} (c : Prop) [Decidable c] (x y : α) :
    (if c then (Except.ok x : Except PyExn α) else Except.ok y)
      = Except.ok (if c then x else y) := by
  split <;> rfl

/-- The date proviso for a recruitment mapping: whenever its
`startDate` is truthy, both `startDate` and `endDate` are strings in
the expected timestamp format (the source's `end_date` line, guarded on
`startDate`, parses `endDate` exactly then). -/
def WFRecruitment (l : List (String × Json)) : Prop :=
  optTruthy (jLookup l "startDate") = true →
    (∃ s dt, jLookup l "startDate" = some (Json.str s) ∧ strptimeZ s = some dt) ∧
    (∃ s dt, jLookup l "endDate" = some (Json.str s) ∧ strptimeZ s = some dt)

/-- Well-formedness of an agent mapping, the proviso of the amended C4:
each present-and-truthy nested field has the shape its sub-constructor
subscripts (a dict where a dict is read, a list of dicts for
`abilities`), and recruitment dates satisfy `WFRecruitment`.  Every
failure of `Agent.__init__` traces to a violation of one of these. -/
def WFAgentJson (kvs : List (String × Json)) : Prop :=
  (optTruthy (jLookup kvs "role") = true → ∃ l, jLookup kvs "role" = some (Json.obj l))
  ∧ (optTruthy (jLookup kvs "recruitmentData") = true →
      ∃ l, jLookup kvs "recruitmentData" = some (Json.obj l) ∧ WFRecruitment l)
  ∧ (∃ xs, (jLookup kvs "abilities").getD (Json.arr []) = Json.arr xs
      ∧ ∀ x ∈ xs, ∃ l, x = Json.obj l)
  ∧ (optTruthy (jLookup kvs "voiceLine") = true →
      ∃ l, jLookup kvs "voiceLine" = some (Json.obj l)
        ∧ (optTruthy (jLookup l "mediaList") = true →
            ∃ m, jLookup l "mediaList" = some (Json.obj m)))

/-- Closed form of the `icon` field: present-and-truthy `displayIcon`
yields an `AgentDisplayIcon`, else `None`. -/
def iconModel (kvs : List (String × Json)) : Option AgentDisplayIcon :=
  if optTruthy (jLookup kvs "displayIcon") then
    some ⟨jLookup kvs "displayIcon", jLookup kvs "displayIconSmall"⟩
  else Option.none

/-- Closed form of the `role` field on a well-formed mapping. -/
def roleModel (rv : Option Json) : Option AgentRole :=
  if optTruthy rv then
    match rv with
    | some (Json.obj l) =>
      some ⟨jLookup l "uuid", jLookup l "displayName", jLookup l "description",
        jLookup l "displayIcon", jLookup l "assetPath"⟩
    | _ => Option.none
  else Option.none

/-- Closed form of a parsed date field: parsed when `cond` (the
source's guard) holds and the value is a parseable string. -/
def dateModel (v : Option Json) (cond : Bool) : Option PyDatetime :=
  if cond then
    match v with
    | some (Json.str s) => strptimeZ s
    | _ => Option.none
  else Option.none

/-- Closed form of the `recruitment_data` field on a well-formed
mapping; both date fields are guarded on `startDate`, as in the
source. -/
def recruitmentModel (rd : Option Json) : Option AgentRecruitmentData :=
  if optTruthy rd then
    match rd with
    | some (Json.obj l) =>
      some ⟨jLookup l "counterId", jLookup l "milestoneId", jLookup l "milestoneThreshold",
        jLookup l "useLevelVpCostOverride", jLookup l "levelVpCostOverride",
        dateModel (jLookup l "startDate") (optTruthy (jLookup l "startDate")),
        dateModel (jLookup l "endDate") (optTruthy (jLookup l "startDate"))⟩
    | _ => Option.none
  else Option.none

/-- Closed form of one ability record. -/
def abilityModel (x : Json) : AgentAbility :=
  match x with
  | Json.obj l => ⟨jLookup l "slot", jLookup l "displayName", jLookup l "description",
      jLookup l "displayIcon"⟩
  | _ => ⟨Option.none, Option.none, Option.none, Option.none⟩

/-- Closed form of the `abilities` field on a well-formed mapping. -/
def abilitiesModel (v : Json) : List AgentAbility :=
  match v with
  | Json.arr xs => xs.map abilityModel
  | _ => []

/-- Closed form of the nested `media_list` field. -/
def mediaListModel (ml : Option Json) : Option VoiceLineMediaList :=
  if optTruthy ml then
    match ml with
    | some (Json.obj m) => some ⟨jLookup m "id", jLookup m "wwise", jLookup m "wave"⟩
    | _ => Option.none
  else Option.none

/-- Closed form of the `voice_line` field on a well-formed mapping. -/
def voiceLineModel (vl : Option Json) : Option VoiceLine :=
  if optTruthy vl then
    match vl with
    | some (Json.obj l) =>
      some ⟨jLookup l "minDuration", jLookup l "maxDuration",
        mediaListModel (jLookup l "mediaList")⟩
    | _ => Option.none
  else Option.none

/-- The `Agent` that construction computes on a well-formed mapping, in
closed form. -/
def agentModel (kvs : List (String × Json)) : Agent :=
  ⟨jLookup kvs "uuid", jLookup kvs "displayName", jLookup kvs "description",
   jLookup kvs "developerName", (jLookup kvs "characterTags").getD (Json.arr []),
   iconModel kvs, jLookup kvs "bustPortrait",
   ⟨jLookup kvs "fullPortrait", jLookup kvs "fullPortraitV2", jLookup kvs "killFeedPortrait",
    jLookup kvs "isFullPortraitFacingRight"⟩,
   jLookup kvs "background", (jLookup kvs "backgroundGradientColors").getD (Json.arr []),
   jLookup kvs "isPlayableCharacter", jLookup kvs "isAvailableForTest",
   jLookup kvs "isBaseContent",
   roleModel (jLookup kvs "role"),
   recruitmentModel (jLookup kvs "recruitmentData"),
   abilitiesModel ((jLookup kvs "abilities").getD (Json.arr [])),
   voiceLineModel (jLookup kvs "voiceLine")⟩

theorem recruitment_ofJson_eq_model (l : List (String × Json)) (h : WFRecruitment l) :
    AgentRecruitmentData.ofJson (some (Json.obj l))
      = Except.ok ⟨jLookup l "counterId", jLookup l "milestoneId", jLookup l "milestoneThreshold",
          jLookup l "useLevelVpCostOverride", jLookup l "levelVpCostOverride",
          dateModel (jLookup l "startDate") (optTruthy (jLookup l "startDate")),
          dateModel (jLookup l "endDate") (optTruthy (jLookup l "startDate"))⟩ := by
  unfold AgentRecruitmentData.ofJson
  by_cases ht : optTruthy (jLookup l "startDate") = true
  · obtain ⟨⟨s1, d1, hs1, hp1⟩, s2, d2, hs2, hp2⟩ := h ht
    rw [hs1] at ht
    simp [Json.pyGet, ht, hs1, hp1, hs2, hp2, dateModel, bind, Except.bind]
  · simp [Json.pyGet, ht, dateModel, bind, Except.bind]

theorem abilities_mapM_eq_model (xs : List Json) (h : ∀ x ∈ xs, ∃ l, x = Json.obj l) :
    mapExcept (fun info => AgentAbility.ofJson (some info)) xs
      = Except.ok (xs.map abilityModel) := by
  induction xs with
  | nil => rfl
  | cons x rest ih =>
    obtain ⟨l, rfl⟩ := h x (by simp)
    have hrest := ih fun y hy => h y (List.mem_cons_of_mem _ hy)
    have hhead : AgentAbility.ofJson (some (Json.obj l))
        = Except.ok ⟨jLookup l "slot", jLookup l "displayName", jLookup l "description",
            jLookup l "displayIcon"⟩ := rfl
    simp only [mapExcept, hhead, bind_ok_pyExn, hrest]
    simp [abilityModel]

theorem voiceline_ofJson_eq_model (l : List (String × Json))
    (h : optTruthy (jLookup l "mediaList") = true →
      ∃ m, jLookup l "mediaList" = some (Json.obj m)) :
    VoiceLine.ofJson (some (Json.obj l))
      = Except.ok ⟨jLookup l "minDuration", jLookup l "maxDuration",
          mediaListModel (jLookup l "mediaList")⟩ := by
  unfold VoiceLine.ofJson
  by_cases hm : optTruthy (jLookup l "mediaList") = true
  · obtain ⟨m, hm2⟩ := h hm
    rw [hm2] at hm
    simp [Json.pyGet, hm, hm2, mediaListModel, VoiceLineMediaList.ofJson, bind, Except.bind]
  · simp [Json.pyGet, hm, mediaListModel, bind, Except.bind]

theorem role_branch (rv : Option Json)
    (h : optTruthy rv = true → ∃ l, rv = some (Json.obj l)) :
    (if optTruthy rv then bind (AgentRole.ofJson rv) (fun r => Except.ok (some r))
     else Except.ok Option.none) = Except.ok (roleModel rv) := by
  by_cases ht : optTruthy rv = true
  · obtain ⟨l, rfl⟩ := h ht
    simp [ht, AgentRole.ofJson, Json.pyGet, roleModel, bind, Except.bind]
  · simp [ht, roleModel]

theorem recruitment_branch (rd : Option Json)
    (h : optTruthy rd = true → ∃ l, rd = some (Json.obj l) ∧ WFRecruitment l) :
    (if optTruthy rd then bind (AgentRecruitmentData.ofJson rd) (fun r => Except.ok (some r))
     else Except.ok Option.none) = Except.ok (recruitmentModel rd) := by
  by_cases ht : optTruthy rd = true
  · obtain ⟨l, rfl, hwfl⟩ := h ht
    rw [if_pos ht, recruitment_ofJson_eq_model l hwfl]
    simp [recruitmentModel, ht, bind, Except.bind]
  · simp [ht, recruitmentModel]

theorem voiceline_branch (vl : Option Json)
    (h : optTruthy vl = true →
      ∃ l, vl = some (Json.obj l)
        ∧ (optTruthy (jLookup l "mediaList") = true →
            ∃ m, jLookup l "mediaList" = some (Json.obj m))) :
    (if optTruthy vl then bind (VoiceLine.ofJson vl) (fun v => Except.ok (some v))
     else Except.ok Option.none) = Except.ok (voiceLineModel vl) := by
  by_cases ht : optTruthy vl = true
  · obtain ⟨l, rfl, hwfl⟩ := h ht
    rw [if_pos ht, voiceline_ofJson_eq_model l hwfl]
    simp [voiceLineModel, ht, bind, Except.bind]
  · simp [ht, voiceLineModel]

theorem agent_ofJson_eq_model (kvs : List (String × Json)) (hwf : WFAgentJson kvs) :
    Agent.ofJson (Json.obj kvs) = Except.ok (agentModel kvs) := by
  obtain ⟨hrole, hrec, ⟨xs, hxs, habs⟩, hvl⟩ := hwf
  unfold Agent.ofJson
  simp only [Json.pyGet, bind_ok_pyExn, ite_ok_push]
  rw [role_branch _ hrole]
  simp only [bind_ok_pyExn]
  rw [recruitment_branch _ hrec]
  simp only [bind_ok_pyExn]
  rw [hxs]
  simp only [Json.iterElems, bind_ok_pyExn]
  rw [abilities_mapM_eq_model xs habs]
  simp only [bind_ok_pyExn]
  rw [voiceline_branch _ hvl]
  simp only [bind_ok_pyExn]
  simp [agentModel, iconModel, abilitiesModel, hxs]

/-- **C1.** The claim states that a `cache=False` call evicts the entry
stored by a prior `cache=True` call with the same arguments, so a later
`cache=True` call re-invokes the underlying operation.  The code does
not do this: the cache key includes `tuple(kwargs.values())`, and the
`cache` flag is itself a keyword argument, so the `cache=True` call
stores under a key ending in `True` while the `cache=False` call pops a
key ending in `False`.  This theorem evaluates the failing run: after
`cache=True`, `cache=False`, `cache=True` with identical arguments, the
stored entry is still present after the eviction call, and the third
call returns the stale stored value without re-invoking the underlying
operation (the invocation count stays at 2). -/
theorem c1_cache_false_fails_to_evict :
    (let f : Nat → PyVal := fun n => PyVal.int (Int.ofNat (100 + n))
     let args : List PyVal := [PyVal.str "self"]
     let r1 := syncCachingCall f "fetch_all" args [("cache", PyVal.bool true)] [] 0
     let r2 := syncCachingCall f "fetch_all" args [("cache", PyVal.bool false)] r1.2.1 r1.2.2
     let r3 := syncCachingCall f "fetch_all" args [("cache", PyVal.bool true)] r2.2.1 r2.2.2
     dictGet r2.2.1 (buildKey "fetch_all" args [("cache", PyVal.bool true)])
         = some (PyVal.int 100)
       ∧ r3.1 = PyVal.int 100 ∧ r3.2.2 = 2) := by
  decide

/-- **C2 counterexample.** The claim states that two `cache=True` calls
with identical arguments invoke the underlying operation at most once.
The hit test `if cache.get(values,False):` uses the truthiness of the
stored value, so a stored falsy result (here the empty list, as
returned by a `fetch_all` with no data) is treated as a miss: the
second identical call invokes the underlying operation again — two
invocations in total. -/
theorem c2_counterexample_falsy_result_refetched :
    (let f : Nat → PyVal := fun _ => PyVal.list []
     let kw : Kwargs := [("cache", PyVal.bool true)]
     let r1 := syncCachingCall f "fetch_all" [PyVal.str "self"] kw [] 0
     let r2 := syncCachingCall f "fetch_all" [PyVal.str "self"] kw r1.2.1 r1.2.2
     r2.2.2 = 2 ∧ ¬r2.2.2 ≤ 1) := by
  decide

/-- **C2 (amended).** Calling a decorated operation twice with
`cache=True` and identical arguments invokes the underlying operation
at most once and returns the stored value the second time, *provided
the first call's result is truthy* (falsy results are treated as cache
misses by the truthiness-based hit test and are re-fetched).  Formally:
if the `cache` flag is truthy and the first call's return value is
truthy, the second identical call returns exactly the first call's
value, leaves the cache unchanged, and performs no further underlying
invocation. -/
theorem c2_amended_truthy_result_cached_once (f : Nat → PyVal) (funcName : String)
    (args : List PyVal) (kwargs : Kwargs) (cache : PyDict) (ncalls : Nat)
    (hc : (kwGet kwargs "cache" (PyVal.bool false)).truthy = true)
    (ht : (syncCachingCall f funcName args kwargs cache ncalls).1.truthy = true) :
    syncCachingCall f funcName args kwargs
        (syncCachingCall f funcName args kwargs cache ncalls).2.1
        (syncCachingCall f funcName args kwargs cache ncalls).2.2
      = syncCachingCall f funcName args kwargs cache ncalls := by
  by_cases h : ((dictGet cache (buildKey funcName args kwargs)).getD (PyVal.bool false)).truthy = true
  · simp [syncCachingCall, hc, h]
  · have hset := dictGet_dictSet_self cache (buildKey funcName args kwargs) (f ncalls)
    simp only [syncCachingCall, hc, h] at ht ⊢
    simp at ht
    rw [hset] at ht
    simp only [Option.getD_some] at ht
    simp [hset, ht]

theorem c2_amended_witness :
    ((kwGet [("cache", PyVal.bool true)] "cache" (PyVal.bool false)).truthy = true)
    ∧ ((syncCachingCall (fun _ => PyVal.int 7) "g" [] [("cache", PyVal.bool true)] [] 0).1.truthy
        = true)
    ∧ syncCachingCall (fun _ => PyVal.int 7) "g" [] [("cache", PyVal.bool true)]
        (syncCachingCall (fun _ => PyVal.int 7) "g" [] [("cache", PyVal.bool true)] [] 0).2.1
        (syncCachingCall (fun _ => PyVal.int 7) "g" [] [("cache", PyVal.bool true)] [] 0).2.2
      = syncCachingCall (fun _ => PyVal.int 7) "g" [] [("cache", PyVal.bool true)] [] 0 :=
  ⟨by decide, by decide,
    c2_amended_truthy_result_cached_once (fun _ => PyVal.int 7) "g" [] [("cache", PyVal.bool true)]
      [] 0 (by decide) (by decide)⟩

/-- **C5.** The memoization key is
`(func.__name__,) + args + tuple(kwargs.values())`: the function name,
the positional arguments, and the keyword argument *values* in call
order — the keyword argument names are absent.  Consequently (first
conjunct) two calls whose keyword values agree in order compute the
same key even under entirely different keyword names, and (second
conjunct) the same two keyword arguments passed in the other order
compute a different key whenever their values differ. -/
theorem c5_key_ignores_keyword_names (funcName : String) (args : List PyVal)
    (kw1 kw2 : Kwargs) (hv : kw1.map Prod.snd = kw2.map Prod.snd) :
    buildKey funcName args kw1 = buildKey funcName args kw2
    ∧ ∀ (a b : String) (x y : PyVal), x ≠ y →
        buildKey funcName args [(a, x), (b, y)] ≠ buildKey funcName args [(b, y), (a, x)] := by
  constructor
  · simp [buildKey, hv]
  · intro a b x y hxy hk
    simp only [buildKey, List.cons.injEq, List.map_cons, List.map_nil, true_and] at hk
    have := List.append_cancel_left hk
    simp at this
    exact hxy this.1

theorem c5_witness :
    ([("a", PyVal.int 1)].map Prod.snd = [("b", PyVal.int 1)].map Prod.snd)
    ∧ buildKey "fetch_all" [] [("a", PyVal.int 1)] = buildKey "fetch_all" [] [("b", PyVal.int 1)]
    ∧ buildKey "fetch_all" [] [("a", PyVal.int 1), ("b", PyVal.int 2)]
        ≠ buildKey "fetch_all" [] [("b", PyVal.int 2), ("a", PyVal.int 1)] :=
  ⟨by decide,
    (c5_key_ignores_keyword_names "fetch_all" [] [("a", PyVal.int 1)] [("b", PyVal.int 1)]
        (by decide)).1,
    (c5_key_ignores_keyword_names "fetch_all" [] [("a", PyVal.int 1)] [("b", PyVal.int 1)]
        (by decide)).2 "a" "b" (PyVal.int 1) (PyVal.int 2) (by decide)⟩

/-- **C3 counterexample.** The claim says the 400-path error carries
"the response's status code".  The code carries `data['status']` — the
status reported inside the body — which need not equal the HTTP status:
a 400 response whose body says `500` yields an
`InvalidOrMissingParameters` carrying `500`, not the response's status
code `400`. -/
theorem c3_counterexample_carries_body_status :
    SyncClient.get ⟨400, some (Json.obj [("status", Json.num 500), ("error", Json.str "oops")])⟩
        = Except.error (PyExn.invalidOrMissingParameters (Json.num 500)
            (Json.str "Invalid or missing parameters"))
      ∧ PyExn.intConv (PyExn.invalidOrMissingParameters (Json.num 500)
            (Json.str "Invalid or missing parameters")) = some 500
      ∧ (500 : Int) ≠ 400 :=
  ⟨rfl, rfl, by decide⟩

/-- **C3 (amended).** For every response whose body decodes as JSON:
on status 200, `get` returns the decoded body unchanged; on status 400
with a body whose `status` field reads as `st`, it raises
`InvalidOrMissingParameters` carrying that server-reported `st`; on
404 likewise `UUIDNotFound`; on any other non-200 status it raises the
generic error carrying the server-reported status and message.  (A
failure body lacking those fields instead raises the lookup failure of
`data['status']` / `data['error']`.) -/
theorem c3_amended_status_mapping (resp : Response) (data : Json)
    (hj : resp.json = some data) :
    (resp.status_code = 200 → SyncClient.get resp = Except.ok data)
    ∧ (∀ st, resp.status_code = 400 → data.item "status" = Except.ok st →
        SyncClient.get resp = Except.error
          (PyExn.invalidOrMissingParameters st (Json.str "Invalid or missing parameters")))
    ∧ (∀ st, resp.status_code = 404 → data.item "status" = Except.ok st →
        SyncClient.get resp = Except.error (PyExn.uuidNotFound st (Json.str "UUID not valid")))
    ∧ (∀ st er, resp.status_code ≠ 200 → resp.status_code ≠ 400 → resp.status_code ≠ 404 →
        data.item "status" = Except.ok st → data.item "error" = Except.ok er →
        SyncClient.get resp = Except.error (PyExn.baseError st er)) := by
  unfold SyncClient.get
  rw [hj]
  refine ⟨?_, ?_, ?_, ?_⟩ <;> intros <;> simp_all

theorem c3_amended_witness :
    SyncClient.get ⟨200, some (Json.obj [("x", Json.num 1)])⟩
        = Except.ok (Json.obj [("x", Json.num 1)])
    ∧ SyncClient.get ⟨400, some (Json.obj [("status", Json.num 400)])⟩
        = Except.error (PyExn.invalidOrMissingParameters (Json.num 400)
            (Json.str "Invalid or missing parameters"))
    ∧ SyncClient.get ⟨404, some (Json.obj [("status", Json.num 404)])⟩
        = Except.error (PyExn.uuidNotFound (Json.num 404) (Json.str "UUID not valid"))
    ∧ SyncClient.get ⟨500, some (Json.obj [("status", Json.num 500), ("error", Json.str "e")])⟩
        = Except.error (PyExn.baseError (Json.num 500) (Json.str "e")) :=
  ⟨(c3_amended_status_mapping ⟨200, some (Json.obj [("x", Json.num 1)])⟩ _ rfl).1 rfl,
   (c3_amended_status_mapping ⟨400, some (Json.obj [("status", Json.num 400)])⟩ _ rfl).2.1
     _ rfl rfl,
   (c3_amended_status_mapping ⟨404, some (Json.obj [("status", Json.num 404)])⟩ _ rfl).2.2.1
     _ rfl rfl,
   (c3_amended_status_mapping
       ⟨500, some (Json.obj [("status", Json.num 500), ("error", Json.str "e")])⟩ _ rfl).2.2.2
     _ _ (by decide) (by decide) (by decide) rfl rfl⟩

/-- **C6 counterexample.** The claim says a malformed (non-JSON) body
on a failure path degrades to a generic error object.  In the code
`resp.json()` runs before any status test, so a 500 response with an
undecodable body raises the JSON decode failure — the outcome is not
the generic `BaseException` error object. -/
theorem c6_counterexample_malformed_body_crashes :
    SyncClient.get ⟨500, Option.none⟩ = Except.error PyExn.jsonDecodeError
      ∧ isGenericError (SyncClient.get ⟨500, Option.none⟩) = false :=
  ⟨rfl, rfl⟩

/-- **C6 (amended).** For every response whose body is not decodable as
JSON — whatever its status — `get` propagates the JSON decode failure
raised by `resp.json()`; it produces no generic error object. -/
theorem c6_amended_malformed_body_raises_decode_error (resp : Response)
    (hm : resp.json = Option.none) :
    SyncClient.get resp = Except.error PyExn.jsonDecodeError := by
  unfold SyncClient.get
  rw [hm]

theorem c6_amended_witness :
    SyncClient.get ⟨503, Option.none⟩ = Except.error PyExn.jsonDecodeError :=
  c6_amended_malformed_body_raises_decode_error ⟨503, Option.none⟩ rfl

/-- **C7.** Invoking the blocking-mode `fetch_all` on a client whose
session is the suspension-capable (`AsyncClient`) transport raises
`ValueError('Invalid session type')`, and the network-request flag is
`false`: whatever response the server would have given, no request is
issued. -/
theorem c7_sync_endpoint_async_session_errors_before_network (resp : Response) :
    SyncAgentEndpoint.fetch_all true resp
      = (Except.error (PyExn.valueError "Invalid session type"), false) :=
  rfl

/-- **C8.** `fetch_from_uuid` on a sync session, against a server
answering HTTP 404 with a JSON body whose `status` field is `404`,
raises `UUIDNotFound` — whose integer conversion
(`BaseException.__int__`, returning `self.status_code`) equals 404. -/
theorem c8_fetch_from_uuid_404_int_conversion (uuid : String) (kvs : List (String × Json))
    (hst : jLookup kvs "status" = some (Json.num 404)) :
    (SyncAgentEndpoint.fetch_from_uuid false uuid ⟨404, some (Json.obj kvs)⟩).1
        = Except.error (PyExn.uuidNotFound (Json.num 404) (Json.str "UUID not valid"))
      ∧ PyExn.intConv (PyExn.uuidNotFound (Json.num 404) (Json.str "UUID not valid"))
        = some 404 := by
  constructor
  · unfold SyncAgentEndpoint.fetch_from_uuid SyncClient.get Json.item
    simp [hst, bind, Except.bind]
  · rfl

theorem c8_witness :
    jLookup [("status", Json.num 404), ("error", Json.str "Not found")] "status"
        = some (Json.num 404)
    ∧ (SyncAgentEndpoint.fetch_from_uuid false "nonexistent-uuid"
          ⟨404, some (Json.obj [("status", Json.num 404), ("error", Json.str "Not found")])⟩).1
        = Except.error (PyExn.uuidNotFound (Json.num 404) (Json.str "UUID not valid"))
    ∧ PyExn.intConv (PyExn.uuidNotFound (Json.num 404) (Json.str "UUID not valid")) = some 404 :=
  ⟨rfl,
   (c8_fetch_from_uuid_404_int_conversion "nonexistent-uuid"
     [("status", Json.num 404), ("error", Json.str "Not found")] rfl).1,
   (c8_fetch_from_uuid_404_int_conversion "nonexistent-uuid"
     [("status", Json.num 404), ("error", Json.str "Not found")] rfl).2⟩

/-- **C9.** With `remove_unused` truthy, the competitive-tier
`fetch_all` post-filter maps every record to exactly its tiers whose
names do not match the sentinel condition, in order — no matching
entry is skipped, duplicates included, because the inner loop iterates
a snapshot copy (`list(comp.tiers)`) while removing from the live
list.  Consequently no surviving tier has a display name containing
`'Unused'`. -/
theorem c9_remove_unused_filters_all (comp_tiers : List CompetitiveTier) :
    fetchAllCompetitiveFilter true comp_tiers
        = comp_tiers.map (fun comp =>
            CompetitiveTier.mk (comp.tiers.filter (fun t => !t.isUnusedTier)))
    ∧ ∀ comp ∈ fetchAllCompetitiveFilter true comp_tiers, ∀ t ∈ comp.tiers,
        ∀ s, t.name = some s → strContainsUnused s = false := by
  have hmap : fetchAllCompetitiveFilter true comp_tiers
      = comp_tiers.map (fun comp =>
          CompetitiveTier.mk (comp.tiers.filter (fun t => !t.isUnusedTier))) := by
    unfold fetchAllCompetitiveFilter
    simp [removeUnusedLoop_eq_filter]
  refine ⟨hmap, ?_⟩
  intro comp hcomp t ht s hs
  rw [hmap] at hcomp
  obtain ⟨c0, _, rfl⟩ := List.mem_map.mp hcomp
  have := List.of_mem_filter ht
  simp only [Bool.not_eq_true', Tier.isUnusedTier, hs] at this
  by_cases he : s = ""
  · subst he; decide
  · simpa [he] using this

theorem c9_witness :
    fetchAllCompetitiveFilter true
        [CompetitiveTier.mk [Tier.mk (some "Unused 1"), Tier.mk (some "Gold"),
          Tier.mk (some "Unused 1")]]
        = [CompetitiveTier.mk [Tier.mk (some "Gold")]]
    ∧ strContainsUnused "Gold" = false := by
  have h := c9_remove_unused_filters_all
    [CompetitiveTier.mk [Tier.mk (some "Unused 1"), Tier.mk (some "Gold"),
      Tier.mk (some "Unused 1")]]
  refine ⟨?_, ?_⟩
  · rw [h.1]; decide
  · exact h.2 (CompetitiveTier.mk [Tier.mk (some "Gold")]) (by rw [h.1]; decide)
      (Tier.mk (some "Gold")) (by simp) "Gold" rfl

/-- **C10.** `Buddy.__init__` assigns `self.levels = data.get('levels',[])`
— the raw JSON list taken from the input mapping, with no `BuddyLevel`
conversion (despite the source's `List[BuddyLevel]` annotation): for
every mapping containing a `levels` list, the constructed entity's
`levels` is exactly that raw list. -/
theorem c10_buddy_levels_stored_raw (kvs : List (String × Json)) (xs : List Json)
    (hl : jLookup kvs "levels" = some (Json.arr xs)) :
    ∃ b, Buddy.ofJson (Json.obj kvs) = Except.ok b ∧ b.levels = Json.arr xs := by
  exact ⟨⟨jLookup kvs "uuid", jLookup kvs "displayName", jLookup kvs "isHiddenIfNotOwner",
    jLookup kvs "themeUuid", jLookup kvs "displayIcon", jLookup kvs "assetPath", Json.arr xs⟩,
    by simp [Buddy.ofJson, Json.pyGet, hl, Except.bind, bind], rfl⟩

theorem c10_witness :
    ∃ b, Buddy.ofJson (Json.obj [("levels", Json.arr [Json.obj [("uuid", Json.str "u")]])])
        = Except.ok b
      ∧ b.levels = Json.arr [Json.obj [("uuid", Json.str "u")]] :=
  c10_buddy_levels_stored_raw [("levels", Json.arr [Json.obj [("uuid", Json.str "u")]])]
    [Json.obj [("uuid", Json.str "u")]] rfl

/-- **C4 counterexample.** The claim says constructing any entity from
any JSON mapping never raises.  `AgentRecruitmentData.__init__` calls
`datetime.strptime` on a present-and-truthy `startDate`, which raises
`ValueError` when the string does not match the format — so `Agent`
construction from `{'recruitmentData': {'startDate': 'not-a-date'}}`
raises instead of succeeding. -/
theorem c4_counterexample_malformed_date_raises :
    Agent.ofJson (Json.obj [("recruitmentData", Json.obj [("startDate", Json.str "not-a-date")])])
      = Except.error (PyExn.valueError "time data does not match format") := rfl

/-- **C4 (amended).** Construction from a mapping cannot raise provided
the mapping's present fields are well-formed (`WFAgentJson`: nested
values that are read as dicts are dicts, `abilities` is a list of
dicts, and a truthy `startDate` comes with parseable `startDate` and
`endDate` strings — the source guards `end_date` on `startDate`).
Under that proviso `Agent` construction succeeds and computes
`agentModel`; and every optional field absent from the mapping reads as
`None` (or the empty list) on the constructed entity. -/
theorem c4_amended_construction (kvs : List (String × Json)) (hwf : WFAgentJson kvs) :
    Agent.ofJson (Json.obj kvs) = Except.ok (agentModel kvs)
    ∧ (jLookup kvs "uuid" = Option.none → (agentModel kvs).uuid = Option.none)
    ∧ (jLookup kvs "displayName" = Option.none → (agentModel kvs).display_name = Option.none)
    ∧ (jLookup kvs "description" = Option.none → (agentModel kvs).description = Option.none)
    ∧ (jLookup kvs "developerName" = Option.none → (agentModel kvs).developer_name = Option.none)
    ∧ (jLookup kvs "characterTags" = Option.none → (agentModel kvs).character_tags = Json.arr [])
    ∧ (jLookup kvs "displayIcon" = Option.none → (agentModel kvs).icon = Option.none)
    ∧ (jLookup kvs "bustPortrait" = Option.none → (agentModel kvs).bust_portrait = Option.none)
    ∧ (jLookup kvs "fullPortrait" = Option.none →
        (agentModel kvs).portrait.full_portrait = Option.none)
    ∧ (jLookup kvs "role" = Option.none → (agentModel kvs).role = Option.none)
    ∧ (jLookup kvs "recruitmentData" = Option.none →
        (agentModel kvs).recruitment_data = Option.none)
    ∧ (jLookup kvs "abilities" = Option.none → (agentModel kvs).abilities = [])
    ∧ (jLookup kvs "voiceLine" = Option.none → (agentModel kvs).voice_line = Option.none) := by
  refine ⟨agent_ofJson_eq_model kvs hwf, ?_, ?_, ?_, ?_, ?_, ?_, ?_, ?_, ?_, ?_, ?_, ?_⟩ <;>
    (intro h
     simp [agentModel, iconModel, roleModel, recruitmentModel, abilitiesModel,
       voiceLineModel, optTruthy, h])

theorem c4_amended_witness :
    Agent.ofJson (Json.obj []) = Except.ok (agentModel [])
      ∧ (agentModel []).uuid = Option.none
      ∧ (agentModel []).role = Option.none
      ∧ (agentModel []).abilities = [] := by
  have h := c4_amended_construction []
    ⟨fun hc => absurd hc (by simp [jLookup, optTruthy]),
     fun hc => absurd hc (by simp [jLookup, optTruthy]),
     ⟨[], rfl, by simp⟩,
     fun hc => absurd hc (by simp [jLookup, optTruthy])⟩
  exact ⟨h.1, h.2.1 rfl, h.2.2.2.2.2.2.2.2.2.1 rfl, h.2.2.2.2.2.2.2.2.2.2.2.1 rfl⟩

end ValorantAPI
